import Mathlib

/-!
Shallow embedding of `src/app/app.py`: a Flask application with three route
handlers (`hello` on `/`, `health` on `/health`, `get_data` on `/api/data`)
and a `__main__` block that starts the development server.

JSON objects are modelled as ordered association lists so that "the keys are
exactly ..." is expressible.  The process environment is a partial map from
variable names to values; `os.environ.get(k, d)` becomes a read of that map
with a default.  Each handler is embedded as a state-passing function
`ProcState → HttpResponse × ProcState` so that absence of side effects is a
provable statement rather than a modelling assumption.
-/

namespace PyApp

/-- JSON values as produced by Flask's `jsonify`: strings, integers, arrays
and objects (ordered key/value lists). -/
inductive Json where
  | str (s : String)
  | num (n : Int)
  | arr (elems : List Json)
  | obj (pairs : List (String × Json))

/-- The keys of a JSON object, in order; `[]` on non-objects. -/
def Json.objKeys : Json → List String
  | .obj kvs => kvs.map Prod.fst
  | _ => []

/-- Look up a key in a JSON object; `none` on non-objects or missing keys. -/
def Json.objLookup (j : Json) (k : String) : Option Json :=
  match j with
  | .obj kvs => (kvs.find? (fun kv => kv.1 == k)).map Prod.snd
  | _ => none

/-- Process state visible to the handlers: the environment variables
(`os.environ`), a partial map from names to values. -/
structure ProcState where
  environ : String → Option String

/-- Embedding of `os.environ.get(key, defaultVal)`: a read-only access to the
process state returning the variable's value, or the default when unset. -/
def osEnvironGet (key defaultVal : String) : ProcState → String × ProcState :=
  fun s => ((s.environ key).getD defaultVal, s)

/-- Update one environment variable (models an external change to the
process environment between requests). -/
def setEnviron (s : ProcState) (key value : String) : ProcState :=
  ⟨fun k => if k = key then some value else s.environ k⟩

/-- An HTTP response: status code and JSON body. -/
structure HttpResponse where
  status : Nat
  body : Json

/-- An incoming HTTP request.  The Flask handlers take no arguments and never
touch the request object, so only the method and path participate in
dispatch. -/
structure HttpRequest where
  method : String
  path : String
  headers : List (String × String)
  reqBody : String

/-- Handler for `GET /` (`app.py` lines 6-12): a JSON object with a constant
message and the `APP_VERSION` / `ENV` environment variables with defaults.
`jsonify` of a dict responds with status 200. -/
def hello : ProcState → HttpResponse × ProcState := fun s0 =>
  let (version, s1) := osEnvironGet "APP_VERSION" "1.0.0" s0
  let (environment, s2) := osEnvironGet "ENV" "development" s1
  (⟨200, .obj [("message", .str "Hello from CI/CD Pipeline!"),
               ("version", .str version),
               ("environment", .str environment)]⟩, s2)

/-- Handler for `GET /health` (`app.py` lines 14-16): `jsonify({'status':
'healthy'}), 200`. -/
def health : ProcState → HttpResponse × ProcState := fun s =>
  (⟨200, .obj [("status", .str "healthy")]⟩, s)

/-- Handler for `GET /api/data` (`app.py` lines 18-23): a fixed list of five
integers and a count, status 200. -/
def get_data : ProcState → HttpResponse × ProcState := fun s =>
  (⟨200, .obj [("data", .arr [.num 1, .num 2, .num 3, .num 4, .num 5]),
               ("count", .num 5)]⟩, s)

/-- The routing table built by the `@app.route` decorators: path to handler.
Unmatched paths fall through to the framework (modelled as `none`). -/
def routeHandler (path : String) :
    Option (ProcState → HttpResponse × ProcState) :=
  if path = "/" then some hello
  else if path = "/health" then some health
  else if path = "/api/data" then some get_data
  else none

/-- Dispatch a request against the current process state.  `@app.route`
without a `methods` argument registers a GET-only view, so a handler is
invoked only for a GET to its path; everything else (404 for unmatched
paths, 405 for other methods on served paths) is answered by the framework
without invoking any handler, modelled as `none`. -/
def handle (s : ProcState) (req : HttpRequest) :
    Option (HttpResponse × ProcState) :=
  if req.method = "GET" then (routeHandler req.path).map (fun h => h s)
  else none

/-- Configuration passed to the development server. -/
structure RunConfig where
  host : String
  port : Nat
  debug : Bool

/-- The `__main__` block (`app.py` lines 25-26):
`app.run(host='0.0.0.0', port=5000, debug=True)`. -/
def mainRun : RunConfig := ⟨"0.0.0.0", 5000, true⟩

/-- The `version` field of the greeting body is the current `APP_VERSION`
value with default `"1.0.0"`. -/
theorem hello_version_field (s : ProcState) :
    (hello s).1.body.objLookup "version" =
      some (.str ((s.environ "APP_VERSION").getD "1.0.0")) := rfl

/-- The `environment` field of the greeting body is the current `ENV`
value with default `"development"`. -/
theorem hello_environment_field (s : ProcState) :
    (hello s).1.body.objLookup "environment" =
      some (.str ((s.environ "ENV").getD "development")) := rfl

/-- Environment with only `APP_VERSION=2.0.0` set, for concrete evaluation. -/
def envTwo : ProcState := ⟨fun k => if k = "APP_VERSION" then some "2.0.0" else none⟩

/-- The empty process environment. -/
def emptyEnv : ProcState := ⟨fun _ => none⟩

/-- A plain GET request to the root path. -/
def reqA : HttpRequest := ⟨"GET", "/", [], ""⟩

/-- A GET request to the root path differing from `reqA` in headers and
body. -/
def reqB : HttpRequest := ⟨"GET", "/", [("X-Header", "y")], "payload"⟩

/-- C1: every greeting response has status 200, its body's keys are exactly
`message`, `version`, `environment` in that order, and the `message` field is
the constant `"Hello from CI/CD Pipeline!"`, for every process environment. -/
theorem hello_status_keys_message (s : ProcState) :
    (hello s).1.status = 200 ∧
    (hello s).1.body.objKeys = ["message", "version", "environment"] ∧
    (hello s).1.body.objLookup "message" =
      some (.str "Hello from CI/CD Pipeline!") :=
  ⟨rfl, rfl, rfl⟩

/-- C2: if `APP_VERSION` is set to `v` the greeting's `version` field is `v`,
otherwise it is `"1.0.0"`; if `ENV` is set to `w` the `environment` field is
`w`, otherwise it is `"development"`. -/
theorem hello_env_defaulting (s : ProcState) :
    (∀ v, s.environ "APP_VERSION" = some v →
      (hello s).1.body.objLookup "version" = some (.str v)) ∧
    (s.environ "APP_VERSION" = none →
      (hello s).1.body.objLookup "version" = some (.str "1.0.0")) ∧
    (∀ w, s.environ "ENV" = some w →
      (hello s).1.body.objLookup "environment" = some (.str w)) ∧
    (s.environ "ENV" = none →
      (hello s).1.body.objLookup "environment" = some (.str "development")) := by
  refine ⟨fun v hv => ?_, fun hv => ?_, fun w hw => ?_, fun hw => ?_⟩
  · simp [hello_version_field, hv]
  · simp [hello_version_field, hv]
  · simp [hello_environment_field, hw]
  · simp [hello_environment_field, hw]

/-- Witness for C2: in an environment with `APP_VERSION=2.0.0` and `ENV`
unset, the greeting reports version `"2.0.0"` and environment
`"development"`. -/
theorem hello_env_defaulting_witness :
    (hello envTwo).1.body.objLookup "version" = some (.str "2.0.0") ∧
    (hello envTwo).1.body.objLookup "environment" =
      some (.str "development") :=
  ⟨(hello_env_defaulting envTwo).1 "2.0.0" (by decide),
   (hello_env_defaulting envTwo).2.2.2 (by decide)⟩

/-- C3: every health response has status 200 and body exactly the JSON object
with the single pair `status: "healthy"`, with no condition on the process
state. -/
theorem health_status_body (s : ProcState) :
    (health s).1.status = 200 ∧
    (health s).1.body = .obj [("status", .str "healthy")] :=
  ⟨rfl, rfl⟩

/-- C4: every data response has status 200, a `data` field that is exactly
the list `[1,2,3,4,5]`, and a `count` field equal to 5, with no condition on
the process state. -/
theorem get_data_status_body (s : ProcState) :
    (get_data s).1.status = 200 ∧
    (get_data s).1.body.objLookup "data" =
      some (.arr [.num 1, .num 2, .num 3, .num 4, .num 5]) ∧
    (get_data s).1.body.objLookup "count" = some (.num 5) :=
  ⟨rfl, rfl, rfl⟩

/-- C5: in every data response, the `count` field equals the length of the
list stored in the `data` field. -/
theorem get_data_count_is_length (s : ProcState) :
    ∃ l : List Json,
      (get_data s).1.body.objLookup "data" = some (.arr l) ∧
      (get_data s).1.body.objLookup "count" = some (.num l.length) :=
  ⟨[.num 1, .num 2, .num 3, .num 4, .num 5], rfl, rfl⟩

/-- C6: the handlers are deterministic and ignore all request content: any
two requests that both invoke a handler (dispatch succeeds) and invoke the
same one (same path) under the same process state produce identical results,
however the requests otherwise differ. -/
theorem handle_ignores_request_content (s : ProcState)
    (r1 r2 : HttpRequest) (hpath : r1.path = r2.path)
    (h1 : (handle s r1).isSome = true) (h2 : (handle s r2).isSome = true) :
    handle s r1 = handle s r2 := by
  unfold handle at h1 h2 ⊢
  by_cases m1 : r1.method = "GET"
  · by_cases m2 : r2.method = "GET"
    · simp [m1, m2, hpath]
    · simp [m2] at h2
  · simp [m1] at h1

/-- Witness for C6: two GET requests to `/`, one bare and one with a header
and a body, both invoke the greeting handler and get identical responses. -/
theorem handle_ignores_request_content_witness :
    handle emptyEnv reqA = handle emptyEnv reqB :=
  handle_ignores_request_content emptyEnv reqA reqB rfl (by decide) (by decide)

/-- C7: no handler changes the process state: each returns the environment it
was given, unchanged. -/
theorem handlers_no_side_effects (s : ProcState) :
    (hello s).2 = s ∧ (health s).2 = s ∧ (get_data s).2 = s :=
  ⟨rfl, rfl, rfl⟩

/-- C8: when run as the main program, the development server is bound to all
interfaces (`0.0.0.0`) on port 5000. -/
theorem mainRun_host_port : mainRun.host = "0.0.0.0" ∧ mainRun.port = 5000 :=
  ⟨rfl, rfl⟩

/-- C9: the greeting handler reads `APP_VERSION` and `ENV` from the state at
each call: its fields equal the values in effect at that request, and setting
either variable to a new value changes the corresponding field of every
subsequent response to that value. -/
theorem hello_reads_env_per_request (s : ProcState) (v w : String) :
    (hello s).1.body.objLookup "version" =
      some (.str ((s.environ "APP_VERSION").getD "1.0.0")) ∧
    (hello s).1.body.objLookup "environment" =
      some (.str ((s.environ "ENV").getD "development")) ∧
    (hello (setEnviron s "APP_VERSION" v)).1.body.objLookup "version" =
      some (.str v) ∧
    (hello (setEnviron s "ENV" w)).1.body.objLookup "environment" =
      some (.str w) := by
  refine ⟨hello_version_field s, hello_environment_field s, ?_, ?_⟩ <;>
    simp [hello_version_field, hello_environment_field, setEnviron]

/-- C10: when run as the main program, the development server is started with
debug mode enabled. -/
theorem mainRun_debug : mainRun.debug = true := rfl

end PyApp
